import Mathlib

/-!
Verification of `aiogram_dialog/context/storage.py` (`StorageProxy`).

The proxy persists dialog `Context` and `Stack` entities into an opaque
key-value store, resolves textual state identifiers against a registry of
state groups, and (de)serializes the `AccessSettings` descriptor of a stack.

The entity classes (`Context`, `Stack`, `AccessSettings`) and the aiogram
types (`State`, `StorageKey`, `ChatMemberStatus`) are not part of the
source tree; they are modelled here from the specification.  The proxy
methods themselves are translated directly from `storage.py`.  Mutable
store state is passed explicitly: a save returns the new store.  Python
exceptions become `Except Err`.
-/

namespace AiogramDialog

/-- Modelled from the spec: an opaque serializable value, used for the
`custom` field of `AccessSettings` and the dialog-specific data fields of a
`Context` that this component passes through unchanged. -/
inductive JsonVal where
  | int (n : Int)
  | str (s : String)
  | bool (b : Bool)
  deriving DecidableEq, Repr

/-- Modelled from the spec: opaque dialog-specific data fields of a
`Context`, passed through the store verbatim. -/
def JsonData := List (String × JsonVal)
  deriving DecidableEq, Repr

/-- Modelled from the spec: a registered state definition.  Each state
exposes its canonical textual identifier (`State.state` in aiogram), of the
form `"<group>:<local-name>"`. -/
structure State where
  state : String
  deriving DecidableEq, Repr

/-- Modelled from the spec: the enumerated membership-status type
(`aiogram.enums.ChatMemberStatus`). -/
inductive ChatMemberStatus where
  | creator
  | administrator
  | member
  | restricted
  | left
  | kicked
  deriving DecidableEq, Repr

/-- Modelled from the spec: the string literal of each membership status,
as persisted on the wire. -/
def ChatMemberStatus.value : ChatMemberStatus → String
  | .creator => "creator"
  | .administrator => "administrator"
  | .member => "member"
  | .restricted => "restricted"
  | .left => "left"
  | .kicked => "kicked"

/-- Modelled from the spec: decoding a raw string through the enumerated
membership-status type (`ChatMemberStatus(raw)` in Python); an unrecognized
literal is a decode failure. -/
def ChatMemberStatus.decode (s : String) : Option ChatMemberStatus :=
  if s = "creator" then some .creator
  else if s = "administrator" then some .administrator
  else if s = "member" then some .member
  else if s = "restricted" then some .restricted
  else if s = "left" then some .left
  else if s = "kicked" then some .kicked
  else none

/-- Modelled from the spec: the access-control descriptor attached to a
stack: an allow-list of user ids, an optional membership-status
requirement, and opaque caller-defined `custom` data. -/
structure AccessSettings where
  user_ids : List Int
  member_status : Option ChatMemberStatus
  custom : Option JsonVal
  deriving DecidableEq, Repr

/-- Modelled from the spec: one active dialog instance: its intent id, the
resolved state reference (a registry member, not raw text, while in
memory), and the remaining dialog-specific fields, opaque to the proxy. -/
structure Context where
  id : String
  state : State
  extra : JsonData
  deriving DecidableEq, Repr

/-- Modelled from the spec: the navigation stack of one conversation: its
id, the ordered history of intent ids, the optional id of the last rendered
message, and the optional access-control descriptor. -/
structure Stack where
  id : String
  intents : List String
  last_message_id : Option Int
  access_settings : Option AccessSettings
  deriving DecidableEq, Repr

/-- Modelled from the spec: a stack is logically empty when its history of
intents is empty (`Stack.empty()` in the entity class). -/
def Stack.empty (s : Stack) : Bool :=
  s.intents.isEmpty

/-- Modelled from the spec: the well-known id of the primary stack
(`DEFAULT_STACK_ID`). -/
def DEFAULT_STACK_ID : String := "default"

/-- Composite storage key, translated from `aiogram.fsm.storage.base.StorageKey`
as used by the proxy: bot identity, chat id, user id, optional thread id,
and the `destiny` discriminator string. -/
structure StorageKey where
  bot_id : Int
  chat_id : Int
  user_id : Int
  thread_id : Option Int
  destiny : String
  deriving DecidableEq, Repr

/-- Errors raised by the proxy, translated from the Python exceptions:
`UnknownIntent`, `UnknownState`, a `KeyError` on a missing mapping key, and
a `ValueError` from an enum decode failure. -/
inductive Err where
  | unknownIntent (msg : String)
  | unknownState (msg : String)
  | keyError (k : String)
  | valueError (msg : String)
  deriving DecidableEq, Repr

/-- Raw member-status value inside a stored access-settings record: either
a string literal or an already-enumerated value (`_dump_access_settings`
copies the enum member verbatim, not pre-stringified). -/
inductive RawStatus where
  | str (s : String)
  | enum (m : ChatMemberStatus)
  deriving DecidableEq, Repr

/-- Raw fields of a non-empty access-settings sub-record, each key
optional (`dict.get` semantics). -/
structure RawAccessFields where
  user_ids : Option (List Int)
  member_status : Option RawStatus
  custom : Option JsonVal
  deriving DecidableEq, Repr

/-- Raw access-settings sub-record as stored: either the empty dict (falsy
in Python, hence parsed as absent) or a non-empty dict of fields. -/
inductive RawAccessDict where
  | empty
  | entries (e : RawAccessFields)
  deriving DecidableEq, Repr

/-- Raw context record as written by `save_context`: the flattened fields
of a `Context`, the state replaced by its textual identifier. -/
structure RawContext where
  id : String
  state : String
  extra : JsonData
  deriving DecidableEq, Repr

/-- Raw stack record: the flattened fields of a `Stack`.  The
`access_settings` key may be missing from the mapping (outer `Option`) and,
when present, holds an `Optional[Dict]` (inner `Option`). -/
structure RawStack where
  id : String
  intents : List String
  last_message_id : Option Int
  access_settings : Option (Option RawAccessDict)
  deriving DecidableEq, Repr

/-- A record held by the key-value store under one key.  The empty mapping
(`{}`) is the tombstone convention for "no record"; `get_data` of a missing
key also yields the empty mapping, so absence and emptiness coincide. -/
inductive RawRecord where
  | empty
  | context (c : RawContext)
  | stack (s : RawStack)
  deriving DecidableEq, Repr

/-- The external key-value store, modelled as an association list from
storage keys to records. -/
structure Store where
  data : List (StorageKey × RawRecord)
  deriving DecidableEq, Repr

/-- Read a record (`BaseStorage.get_data`): a missing key yields the empty
mapping. -/
def Store.get (st : Store) (k : StorageKey) : RawRecord :=
  match st.data.find? (fun p => p.1 == k) with
  | some p => p.2
  | none => .empty

/-- Write a record (`BaseStorage.set_data`), replacing any previous record
under the same key. -/
def Store.set (st : Store) (k : StorageKey) (r : RawRecord) : Store :=
  ⟨(k, r) :: st.data.filter (fun p => p.1 != k)⟩

/-- The store with no records at all. -/
def Store.emptyStore : Store := ⟨[]⟩

/-- The proxy configuration, translated from `StorageProxy.__init__`: the
scoping identifiers, the bot identity (only `bot.id` is ever used), and the
registry mapping group name to the ordered list of that group's state
definitions (`__all_states__`). -/
structure StorageProxy where
  user_id : Int
  chat_id : Int
  chat_type : String
  thread_id : Option Int
  bot_id : Int
  state_groups : List (String × List State)
  deriving DecidableEq, Repr

namespace StorageProxy

/-- Registry lookup (`self.state_groups[group]`): `none` models the Python
`KeyError` on an unregistered group name. -/
def lookupGroup (p : StorageProxy) (group : String) : Option (List State) :=
  match p.state_groups.find? (fun g => g.1 == group) with
  | some g => some g.2
  | none => none

/-- The part of a state identifier before the first `":"`
(`state.partition(":")` keeps only the first component). -/
def groupOf (s : String) : String :=
  ⟨s.data.takeWhile (fun c => c != ':')⟩

/-- Translated from `StorageProxy._state`: split the identifier on the
first `":"` to get the group; an unregistered group raises `UnknownState`
naming the group; otherwise scan the group's states in declared order and
return the first whose own textual identifier equals the full input; if
none matches raise `UnknownState` naming the full identifier. -/
def resolveState (p : StorageProxy) (state : String) : Except Err State :=
  let group := groupOf state
  match p.lookupGroup group with
  | none => .error (.unknownState ("Unknown state group " ++ group))
  | some states =>
    match states.find? (fun real_state => real_state.state == state) with
    | some real_state => .ok real_state
    | none => .error (.unknownState ("Unknown state " ++ state))

/-- Translated from `StorageProxy._context_key`. -/
def contextKey (p : StorageProxy) (intent_id : String) : StorageKey :=
  { bot_id := p.bot_id
    chat_id := p.chat_id
    user_id := p.user_id
    thread_id := p.thread_id
    destiny := "aiogd:context:" ++ intent_id }

/-- Translated from `StorageProxy._stack_key`. -/
def stackKey (p : StorageProxy) (stack_id : String) : StorageKey :=
  { bot_id := p.bot_id
    chat_id := p.chat_id
    user_id := p.user_id
    thread_id := p.thread_id
    destiny := "aiogd:stack:" ++ stack_id }

/-- Translated from `StorageProxy._parse_access_settings`: an absent or
empty (falsy) raw sub-record parses to absent; otherwise `user_ids`
defaults to `[]` (`raw.get("user_ids") or []`), a truthy `member_status` is
decoded through `ChatMemberStatus` (an unrecognized literal raises
`ValueError`, propagated), and `custom` passes through via `raw.get`. -/
def parseMemberStatus (raw : Option RawStatus) :
    Except Err (Option ChatMemberStatus) :=
  match raw with
  | none => .ok none
  | some (.str s) =>
    if s = "" then .ok none
    else match ChatMemberStatus.decode s with
      | some m => .ok (some m)
      | none => .error (.valueError (s ++ " is not a valid ChatMemberStatus"))
  | some (.enum m) => .ok (some m)

def parseAccessSettings (p : StorageProxy) (raw : Option RawAccessDict) :
    Except Err (Option AccessSettings) :=
  match raw with
  | none => .ok none
  | some .empty => .ok none
  | some (.entries e) =>
    match parseMemberStatus e.member_status with
    | .error er => .error er
    | .ok member_status =>
      .ok (some { user_ids := e.user_ids.getD []
                  member_status := member_status
                  custom := e.custom })

/-- Translated from `StorageProxy._dump_access_settings`: absent dumps to
absent (`None`), a present descriptor dumps to a record with exactly the
three fields `user_ids`, `member_status`, `custom` copied verbatim, the
member status left as its enumerated value. -/
def dumpAccessSettings (p : StorageProxy)
    (access_settings : Option AccessSettings) : Option RawAccessDict :=
  match access_settings with
  | none => none
  | some a =>
    some (.entries { user_ids := some a.user_ids
                     member_status := a.member_status.map .enum
                     custom := a.custom })

/-- Translated from `StorageProxy.load_context`: read the record under the
context key; an empty/absent mapping raises `UnknownIntent`; otherwise the
stored state text is resolved and a `Context` is rebuilt from the stored
fields.  A non-context record under the key has no `"state"` key, so the
subscript `data["state"]` raises `KeyError`. -/
def load_context (p : StorageProxy) (store : Store) (intent_id : String) :
    Except Err Context :=
  match store.get (p.contextKey intent_id) with
  | .empty => .error (.unknownIntent ("Context not found for intent id: " ++ intent_id))
  | .context data =>
    match p.resolveState data.state with
    | .ok st => .ok { id := data.id, state := st, extra := data.extra }
    | .error e => .error e
  | .stack _ => .error (.keyError "state")

/-- Translated from `StorageProxy.load_stack`: read the record under the
stack key; an empty/absent mapping yields a fresh `Stack` with only the id
set; otherwise `data.pop("access_settings")` is unconditional (a missing
key raises `KeyError`), its value is parsed, and the `Stack` is rebuilt.
A non-stack record under the key likewise lacks the key and raises
`KeyError`. -/
def load_stack (p : StorageProxy) (store : Store)
    (stack_id : String) : Except Err Stack :=
  match store.get (p.stackKey stack_id) with
  | .empty => .ok { id := stack_id, intents := [], last_message_id := none,
                    access_settings := none }
  | .stack data =>
    match data.access_settings with
    | none => .error (.keyError "access_settings")
    | some raw =>
      match p.parseAccessSettings raw with
      | .ok access_settings =>
        .ok { id := data.id, intents := data.intents,
              last_message_id := data.last_message_id,
              access_settings := access_settings }
      | .error e => .error e
  | .context _ => .error (.keyError "access_settings")

/-- Translated from `StorageProxy.save_context`: a `None` context is a
no-op; otherwise the fields are flattened from a shallow copy
(`copy(vars(context))`), the state field replaced by its textual
identifier, and written under the context key. -/
def save_context (p : StorageProxy) (store : Store)
    (context : Option Context) : Store :=
  match context with
  | none => store
  | some c =>
    store.set (p.contextKey c.id)
      (.context { id := c.id, state := c.state.state, extra := c.extra })

/-- Translated from `StorageProxy.remove_context`: write an empty tombstone
record under the context key. -/
def remove_context (p : StorageProxy) (store : Store) (intent_id : String) :
    Store :=
  store.set (p.contextKey intent_id) .empty

/-- Translated from `StorageProxy.remove_stack`: write an empty tombstone
record under the stack key. -/
def remove_stack (p : StorageProxy) (store : Store) (stack_id : String) :
    Store :=
  store.set (p.stackKey stack_id) .empty

/-- Translated from `StorageProxy.save_stack`: a `None` stack is a no-op;
a stack with empty history and a falsy `last_message_id` (Python `not`:
`None` or `0`) is written as an empty tombstone; otherwise the fields are
flattened from a shallow copy, `access_settings` replaced by its dumped
form, and written under the stack key. -/
def save_stack (p : StorageProxy) (store : Store) (stack : Option Stack) :
    Store :=
  match stack with
  | none => store
  | some s =>
    if s.empty && (s.last_message_id == none || s.last_message_id == some 0) then
      store.set (p.stackKey s.id) .empty
    else
      store.set (p.stackKey s.id)
        (.stack { id := s.id, intents := s.intents,
                  last_message_id := s.last_message_id,
                  access_settings := some (p.dumpAccessSettings s.access_settings) })

end StorageProxy

/-! ### Supporting lemmas -/

deriving instance DecidableEq for Except

/-- Reading back the key that was just written returns the written record. -/
theorem Store.get_set_self (st : Store) (k : StorageKey) (r : RawRecord) :
    (st.set k r).get k = r := by
  simp [Store.get, Store.set]

/-- State resolution fails only with `UnknownState`, never with another
error kind. -/
theorem StorageProxy.resolveState_error (p : StorageProxy) (s : String)
    (e : Err) (h : p.resolveState s = .error e) : ∃ m, e = .unknownState m := by
  simp only [StorageProxy.resolveState] at h
  split at h
  · exact ⟨_, (Except.error.inj h).symm⟩
  · split at h
    · exact absurd h (by simp)
    · exact ⟨_, (Except.error.inj h).symm⟩

/-- Parsing a dumped access-settings descriptor recovers it exactly,
including the present/absent distinction. -/
theorem StorageProxy.parse_dump_access (p : StorageProxy)
    (a : Option AccessSettings) :
    p.parseAccessSettings (p.dumpAccessSettings a) = .ok a := by
  cases a with
  | none => rfl
  | some a =>
    cases a with
    | mk u m c => cases m <;> rfl

/-! ### Concrete fixtures used by the witnesses -/

/-- The first registered state of the example group. -/
def stateA : State := ⟨"Main:step1"⟩

/-- The second registered state of the example group. -/
def stateB : State := ⟨"Main:step2"⟩

/-- An example registry with a single group `Main`. -/
def groupsMain : List (String × List State) := [("Main", [stateA, stateB])]

/-- A concrete proxy configuration over the example registry. -/
def proxy0 : StorageProxy :=
  { user_id := 10, chat_id := 20, chat_type := "private", thread_id := none,
    bot_id := 42, state_groups := groupsMain }

/-- A concrete context whose state is the canonical registry instance. -/
def ctx0 : Context := { id := "x", state := stateA, extra := [("foo", .int 7)] }

/-! ### Claims -/

/-- C1: for every valid `Context` (one whose textual state identifier
resolves to exactly the state reference the context holds, i.e. the
canonical registry instance), `save_context` followed by `load_context`
with the same intent id returns an equal context: same id, same resolved
state reference, same extra fields. -/
theorem C1_context_roundtrip (p : StorageProxy) (store : Store) (c : Context)
    (h : p.resolveState c.state.state = .ok c.state) :
    p.load_context (p.save_context store (some c)) c.id = .ok c := by
  cases c with
  | mk id state extra =>
    simp [StorageProxy.save_context, StorageProxy.load_context,
      Store.get_set_self, h]

/-- Witness for C1 at a concrete proxy, store and context. -/
theorem C1_context_roundtrip_witness :
    proxy0.resolveState ctx0.state.state = .ok ctx0.state ∧
    proxy0.load_context (proxy0.save_context Store.emptyStore (some ctx0))
      ctx0.id = .ok ctx0 :=
  ⟨by decide, C1_context_roundtrip proxy0 Store.emptyStore ctx0 (by decide)⟩

/-- C5: `load_stack` never raises on a missing record: when the store holds
the empty/absent mapping under the stack key, it returns a fresh `Stack`
with the requested id, no history, no last message id and no access
settings, as a normal non-error outcome. -/
theorem C5_load_stack_missing (p : StorageProxy) (store : Store)
    (stack_id : String)
    (h : store.get (p.stackKey stack_id) = .empty) :
    p.load_stack store stack_id =
      .ok { id := stack_id, intents := [], last_message_id := none,
            access_settings := none } := by
  simp [StorageProxy.load_stack, h]

/-- Witness for C5 on the store with no records at all. -/
theorem C5_load_stack_missing_witness :
    Store.emptyStore.get (proxy0.stackKey "y") = .empty ∧
    proxy0.load_stack Store.emptyStore "y" =
      .ok { id := "y", intents := [], last_message_id := none,
            access_settings := none } :=
  ⟨by decide, C5_load_stack_missing proxy0 Store.emptyStore "y" (by decide)⟩

/-- A concrete populated stack with present access settings. -/
def stackFull : Stack :=
  { id := "s", intents := ["i1", "i2"], last_message_id := some 5,
    access_settings := some { user_ids := [1, 2],
                              member_status := some .administrator,
                              custom := some (.int 3) } }

/-- A concrete stack with empty history and last message id `0`, which is
falsy in Python although it is set. -/
def stackY : Stack :=
  { id := "y", intents := [], last_message_id := some 0,
    access_settings := none }

/-- A concrete stack with empty history, last message id `0` and no access
settings, under the stack id `z`. -/
def stackZ : Stack :=
  { id := "z", intents := [], last_message_id := some 0,
    access_settings := none }

/-- A concrete logically empty stack that still carries access settings. -/
def stackE : Stack :=
  { id := "e", intents := [], last_message_id := none,
    access_settings := some { user_ids := [9], member_status := none,
                              custom := none } }

/-- C2 counterexample: the stack with empty history and `last_message_id`
set to `0` has a set last message id, yet `save_stack` tombstones it
(Python `not 0` is true), so the subsequent `load_stack` does not return an
equal stack. -/
theorem C2_stack_roundtrip_counterexample :
    (stackY.intents ≠ [] ∨ stackY.last_message_id ≠ none) ∧
    proxy0.load_stack (proxy0.save_stack Store.emptyStore (some stackY))
      stackY.id ≠ .ok stackY := by
  decide

/-- C2 (amended): for every `Stack` with non-empty history or a set and
nonzero last message id, `save_stack` followed by `load_stack` with the
same stack id returns an equal stack, with `access_settings` round-tripped
(absent stays absent, present stays present and equal). -/
theorem C2_stack_roundtrip (p : StorageProxy) (store : Store) (s : Stack)
    (h : s.intents ≠ [] ∨
         (s.last_message_id ≠ none ∧ s.last_message_id ≠ some 0)) :
    p.load_stack (p.save_stack store (some s)) s.id = .ok s := by
  cases s with
  | mk id intents lmid acc =>
    have hcond : (Stack.empty ⟨id, intents, lmid, acc⟩ &&
        (lmid == none || lmid == some 0)) = false := by
      rcases h with h | ⟨h1, h2⟩
      · simp_all [Stack.empty]
      · simp_all
    simp [StorageProxy.save_stack, hcond, StorageProxy.load_stack,
      Store.get_set_self, StorageProxy.parse_dump_access]

/-- Witness for C2 at a concrete populated stack. -/
theorem C2_stack_roundtrip_witness :
    (stackFull.intents ≠ [] ∨
     (stackFull.last_message_id ≠ none ∧
      stackFull.last_message_id ≠ some 0)) ∧
    proxy0.load_stack (proxy0.save_stack Store.emptyStore (some stackFull))
      stackFull.id = .ok stackFull :=
  ⟨by decide, C2_stack_roundtrip proxy0 Store.emptyStore stackFull (by decide)⟩

/-- C6 counterexample: a stack whose `last_message_id` is set (to `0`) is
still tombstoned by `save_stack`, refuting the clause that stacks with a
last message id are never tombstoned. -/
theorem C6_counterexample :
    stackZ.last_message_id ≠ none ∧
    (proxy0.save_stack Store.emptyStore (some stackZ)).get
      (proxy0.stackKey stackZ.id) = .empty := by
  decide

/-- C6 (amended): a stack with empty history and no last message id is
saved as an empty tombstone record regardless of its access settings, so a
subsequent `load_stack` of that id returns a fresh stack with absent access
settings; a stack with non-empty history or a set nonzero last message id
is never tombstoned: its saved record is a populated stack record. -/
theorem C6_empty_stack_tombstone (p : StorageProxy) (store : Store)
    (s : Stack) :
    (s.intents = [] ∧ s.last_message_id = none →
       (p.save_stack store (some s)).get (p.stackKey s.id) = .empty ∧
       p.load_stack (p.save_stack store (some s)) s.id =
         .ok { id := s.id, intents := [], last_message_id := none,
               access_settings := none }) ∧
    (s.intents ≠ [] ∨
       (s.last_message_id ≠ none ∧ s.last_message_id ≠ some 0) →
       ∃ raw, (p.save_stack store (some s)).get (p.stackKey s.id) =
         .stack raw) := by
  cases s with
  | mk id intents lmid acc =>
    constructor
    · rintro ⟨h1, h2⟩
      subst h1; subst h2
      simp [StorageProxy.save_stack, StorageProxy.load_stack, Stack.empty,
        Store.get_set_self]
    · intro h
      have hcond : (Stack.empty ⟨id, intents, lmid, acc⟩ &&
          (lmid == none || lmid == some 0)) = false := by
        rcases h with h | ⟨h1, h2⟩
        · simp_all [Stack.empty]
        · simp_all
      refine ⟨{ id := id, intents := intents, last_message_id := lmid,
                access_settings := some (p.dumpAccessSettings acc) }, ?_⟩
      simp [StorageProxy.save_stack, hcond, Store.get_set_self]

/-- Witness for C6: the tombstone branch at a logically empty stack that
carries access settings, and the populated branch at a full stack. -/
theorem C6_empty_stack_tombstone_witness :
    ((proxy0.save_stack Store.emptyStore (some stackE)).get
       (proxy0.stackKey stackE.id) = .empty ∧
     proxy0.load_stack (proxy0.save_stack Store.emptyStore (some stackE))
       stackE.id =
       .ok { id := stackE.id, intents := [], last_message_id := none,
             access_settings := none }) ∧
    (∃ raw, (proxy0.save_stack Store.emptyStore (some stackFull)).get
       (proxy0.stackKey stackFull.id) = .stack raw) :=
  ⟨(C6_empty_stack_tombstone proxy0 Store.emptyStore stackE).1 (by decide),
   (C6_empty_stack_tombstone proxy0 Store.emptyStore stackFull).2 (by decide)⟩

/-- C3: state resolution splits the input on the first `":"` to get the
group; on success the result is a member of that group's registered list
(the canonical instance, in fact the first declared member whose textual
identifier equals the full input); an unregistered group fails with
`UnknownState` naming the group; a registered group with no matching member
fails with `UnknownState` naming the full identifier. -/
theorem C3_state_resolution (p : StorageProxy) (s : String) :
    (∀ st, p.resolveState s = .ok st →
       ∃ states, p.lookupGroup (StorageProxy.groupOf s) = some states ∧
         st ∈ states ∧ st.state = s ∧
         states.find? (fun t => t.state == s) = some st) ∧
    (p.lookupGroup (StorageProxy.groupOf s) = none →
       p.resolveState s =
         .error (.unknownState
           ("Unknown state group " ++ StorageProxy.groupOf s))) ∧
    (∀ states, p.lookupGroup (StorageProxy.groupOf s) = some states →
       (∀ t, t ∈ states → t.state ≠ s) →
       p.resolveState s = .error (.unknownState ("Unknown state " ++ s))) := by
  refine ⟨?_, ?_, ?_⟩
  · intro st h
    simp only [StorageProxy.resolveState] at h
    split at h
    · exact absurd h (by simp)
    · rename_i states hl
      split at h
      · rename_i real hf
        have hr : real = st := by injection h
        subst hr
        exact ⟨states, hl, List.mem_of_find?_eq_some hf,
          by simpa using List.find?_some hf, hf⟩
      · exact absurd h (by simp)
  · intro h
    simp [StorageProxy.resolveState, h]
  · intro states hl hnone
    have hf : states.find? (fun t => t.state == s) = none := by
      rw [List.find?_eq_none]
      intro t ht
      simpa using hnone t ht
    simp [StorageProxy.resolveState, hl, hf]

/-- Witness for C3 against the example registry: `"Main:step1"` resolves
to `stateA`, `"Other:step1"` fails on the group, `"Main:step9"` fails on
the member. -/
theorem C3_state_resolution_witness :
    (∃ states,
       proxy0.lookupGroup (StorageProxy.groupOf "Main:step1") = some states ∧
       stateA ∈ states ∧ stateA.state = "Main:step1" ∧
       states.find? (fun t => t.state == "Main:step1") = some stateA) ∧
    proxy0.resolveState "Other:step1" =
      .error (.unknownState
        ("Unknown state group " ++ StorageProxy.groupOf "Other:step1")) ∧
    proxy0.resolveState "Main:step9" =
      .error (.unknownState ("Unknown state " ++ "Main:step9")) :=
  ⟨(C3_state_resolution proxy0 "Main:step1").1 stateA (by decide),
   (C3_state_resolution proxy0 "Other:step1").2.1 (by decide),
   (C3_state_resolution proxy0 "Main:step9").2.2 [stateA, stateB]
     (by decide) (by decide)⟩

/-- A concrete store holding the saved context `ctx0`. -/
def storeC : Store := proxy0.save_context Store.emptyStore (some ctx0)

/-- A raw stack record whose mapping lacks the `access_settings` key. -/
def rawNoAS : RawStack :=
  { id := "y", intents := ["i1"], last_message_id := none,
    access_settings := none }

/-- A concrete store holding a stack record without `access_settings`. -/
def storeB : Store := Store.emptyStore.set (proxy0.stackKey "y") (.stack rawNoAS)

/-- C4: `load_context` fails with `UnknownIntent` exactly when the store
holds the empty/absent mapping under the context key; when a context
record exists and loading succeeds, the result is built from the stored
fields with the stored state text resolved to the state object.  Loading
performs no write: in this embedding a load returns no store. -/
theorem C4_load_context_unknown_intent (p : StorageProxy) (store : Store)
    (intent_id : String) :
    ((∃ m, p.load_context store intent_id = .error (.unknownIntent m)) ↔
       store.get (p.contextKey intent_id) = .empty) ∧
    (∀ raw c, store.get (p.contextKey intent_id) = .context raw →
       p.load_context store intent_id = .ok c →
       c.id = raw.id ∧ c.extra = raw.extra ∧
       p.resolveState raw.state = .ok c.state) := by
  constructor
  · constructor
    · rintro ⟨m, hm⟩
      simp only [StorageProxy.load_context] at hm
      split at hm
      · rename_i hget; exact hget
      · rename_i data hget
        cases hr : p.resolveState data.state with
        | ok st => rw [hr] at hm; simp at hm
        | error e =>
          rw [hr] at hm
          obtain ⟨m', rfl⟩ := StorageProxy.resolveState_error p data.state e hr
          simp at hm
      · simp at hm
    · intro h
      refine ⟨"Context not found for intent id: " ++ intent_id, ?_⟩
      simp [StorageProxy.load_context, h]
  · intro raw c hget hok
    simp only [StorageProxy.load_context, hget] at hok
    cases hr : p.resolveState raw.state with
    | ok st =>
      rw [hr] at hok
      simp at hok
      subst hok
      simp [hr]
    | error e => rw [hr] at hok; simp at hok

/-- Witness for C4: a never-saved intent id raises `UnknownIntent`, and a
stored record loads back with its fields. -/
theorem C4_load_context_unknown_intent_witness :
    (∃ m, proxy0.load_context Store.emptyStore "x" =
       .error (.unknownIntent m)) ∧
    (ctx0.id = "x" ∧ ctx0.extra = [("foo", JsonVal.int 7)] ∧
     proxy0.resolveState "Main:step1" = .ok ctx0.state) :=
  ⟨(C4_load_context_unknown_intent proxy0 Store.emptyStore "x").1.mpr
     (by decide),
   (C4_load_context_unknown_intent proxy0 storeC "x").2
     ⟨"x", "Main:step1", [("foo", .int 7)]⟩ ctx0 (by decide) (by decide)⟩

/-- C10: a non-empty stored stack record lacking the `access_settings` key
makes `load_stack` fail with the uncaught `KeyError` from the unconditional
`pop`; conversely a successful load means either the record was absent or
it contained the key. -/
theorem C10_load_stack_missing_field (p : StorageProxy) (store : Store)
    (stack_id : String) :
    (∀ raw, store.get (p.stackKey stack_id) = .stack raw →
       raw.access_settings = none →
       p.load_stack store stack_id = .error (.keyError "access_settings")) ∧
    (∀ s, p.load_stack store stack_id = .ok s →
       store.get (p.stackKey stack_id) = .empty ∨
       ∃ raw v, store.get (p.stackKey stack_id) = .stack raw ∧
         raw.access_settings = some v) := by
  constructor
  · intro raw hget hmiss
    simp [StorageProxy.load_stack, hget, hmiss]
  · intro s hok
    simp only [StorageProxy.load_stack] at hok
    split at hok
    · rename_i hget; exact .inl hget
    · rename_i data hget
      cases hv : data.access_settings with
      | none => rw [hv] at hok; simp at hok
      | some v => exact .inr ⟨data, v, hget, hv⟩
    · simp at hok

/-- Witness for C10: the stored record without the key fails with
`KeyError`, and a successful load on an empty store takes the absent
branch. -/
theorem C10_load_stack_missing_field_witness :
    proxy0.load_stack storeB "y" = .error (.keyError "access_settings") ∧
    (Store.emptyStore.get (proxy0.stackKey "q") = .empty ∨
     ∃ raw v, Store.emptyStore.get (proxy0.stackKey "q") = .stack raw ∧
       raw.access_settings = some v) :=
  ⟨(C10_load_stack_missing_field proxy0 storeB "y").1 rawNoAS
     (by decide) (by decide),
   (C10_load_stack_missing_field proxy0 Store.emptyStore "q").2
     { id := "q", intents := [], last_message_id := none,
       access_settings := none } (by decide)⟩

/-- C7: parsing an absent or empty raw sub-record yields absent settings;
otherwise `user_ids` defaults to the empty list when missing, a present
non-empty `member_status` is decoded through the membership-status
enumeration with an unrecognized literal propagating the decode error
unswallowed, and `custom` passes through; dumping absent settings is
absent, dumping present settings emits exactly the three fields verbatim,
and parsing a dump recovers the original. -/
theorem C7_access_settings_marshal (p : StorageProxy) :
    p.parseAccessSettings none = .ok none ∧
    p.parseAccessSettings (some .empty) = .ok none ∧
    (∀ e : RawAccessFields, e.member_status = none →
       p.parseAccessSettings (some (.entries e)) =
         .ok (some { user_ids := e.user_ids.getD [], member_status := none,
                     custom := e.custom })) ∧
    (∀ e s m, e.member_status = some (.str s) →
       ChatMemberStatus.decode s = some m →
       p.parseAccessSettings (some (.entries e)) =
         .ok (some { user_ids := e.user_ids.getD [], member_status := some m,
                     custom := e.custom })) ∧
    (∀ e s, e.member_status = some (.str s) → s ≠ "" →
       ChatMemberStatus.decode s = none →
       p.parseAccessSettings (some (.entries e)) =
         .error (.valueError (s ++ " is not a valid ChatMemberStatus"))) ∧
    p.dumpAccessSettings none = none ∧
    (∀ a : AccessSettings, p.dumpAccessSettings (some a) =
       some (.entries { user_ids := some a.user_ids,
                        member_status := a.member_status.map .enum,
                        custom := a.custom })) ∧
    (∀ a, p.parseAccessSettings (p.dumpAccessSettings a) = .ok a) := by
  refine ⟨rfl, rfl, ?_, ?_, ?_, rfl, fun a => rfl,
    StorageProxy.parse_dump_access p⟩
  · intro e h
    simp [StorageProxy.parseAccessSettings, StorageProxy.parseMemberStatus, h]
  · intro e s m h1 h2
    have hs : s ≠ "" := by
      rintro rfl
      rw [show ChatMemberStatus.decode "" = none from by decide] at h2
      exact Option.noConfusion h2
    simp [StorageProxy.parseAccessSettings, StorageProxy.parseMemberStatus,
      h1, hs, h2]
  · intro e s h1 hne h2
    simp [StorageProxy.parseAccessSettings, StorageProxy.parseMemberStatus,
      h1, hne, h2]

/-- Witness for C7 at the spec's example inputs: `user_ids [1, 2]`,
`member_status "administrator"`, absent `custom`; a record with no member
status; and an unrecognized literal. -/
theorem C7_access_settings_marshal_witness :
    proxy0.parseAccessSettings
      (some (.entries { user_ids := some [1, 2], member_status := none,
                        custom := none })) =
      .ok (some { user_ids := [1, 2], member_status := none,
                  custom := none }) ∧
    proxy0.parseAccessSettings
      (some (.entries { user_ids := some [1, 2],
                        member_status := some (.str "administrator"),
                        custom := none })) =
      .ok (some { user_ids := [1, 2],
                  member_status := some .administrator, custom := none }) ∧
    proxy0.parseAccessSettings
      (some (.entries { user_ids := none,
                        member_status := some (.str "bogus"),
                        custom := none })) =
      .error (.valueError ("bogus" ++ " is not a valid ChatMemberStatus")) :=
  ⟨(C7_access_settings_marshal proxy0).2.2.1
     { user_ids := some [1, 2], member_status := none, custom := none } rfl,
   (C7_access_settings_marshal proxy0).2.2.2.1
     { user_ids := some [1, 2], member_status := some (.str "administrator"),
       custom := none } "administrator" .administrator rfl (by decide),
   (C7_access_settings_marshal proxy0).2.2.2.2.1
     { user_ids := none, member_status := some (.str "bogus"),
       custom := none } "bogus" rfl (by decide) (by decide)⟩

/-- C8: every key has the five parts (bot identity, chat id, user id,
optional thread id, discriminator), the discriminator is the fixed
namespace `aiogd` plus the record kind (`context` or `stack`) plus the
entity id, and keys for distinct entity ids, or for a context versus a
stack, never coincide. -/
theorem C8_key_shape (p : StorageProxy) (i j : String) :
    p.contextKey i =
      { bot_id := p.bot_id, chat_id := p.chat_id, user_id := p.user_id,
        thread_id := p.thread_id, destiny := "aiogd:context:" ++ i } ∧
    p.stackKey i =
      { bot_id := p.bot_id, chat_id := p.chat_id, user_id := p.user_id,
        thread_id := p.thread_id, destiny := "aiogd:stack:" ++ i } ∧
    (i ≠ j → p.contextKey i ≠ p.contextKey j) ∧
    (i ≠ j → p.stackKey i ≠ p.stackKey j) ∧
    p.contextKey i ≠ p.stackKey j := by
  refine ⟨rfl, rfl, ?_, ?_, ?_⟩
  · intro hne heq
    apply hne
    have hd := congrArg StorageKey.destiny heq
    simp only [StorageProxy.contextKey, StorageProxy.stackKey] at hd
    have h2 := congrArg String.data hd
    rw [String.data_append, String.data_append] at h2
    exact String.ext (List.append_cancel_left h2)
  · intro hne heq
    apply hne
    have hd := congrArg StorageKey.destiny heq
    simp only [StorageProxy.contextKey, StorageProxy.stackKey] at hd
    have h2 := congrArg String.data hd
    rw [String.data_append, String.data_append] at h2
    exact String.ext (List.append_cancel_left h2)
  · intro heq
    have hd := congrArg StorageKey.destiny heq
    simp only [StorageProxy.contextKey, StorageProxy.stackKey] at hd
    have h2 := congrArg String.data hd
    rw [String.data_append, String.data_append] at h2
    have h6 : ("aiogd:context:".data ++ i.data)[6]? =
        ("aiogd:stack:".data ++ j.data)[6]? := by rw [h2]
    rw [List.getElem?_append_left (by decide),
      List.getElem?_append_left (by decide)] at h6
    exact absurd h6 (by decide)

/-- Witness for C8 at concrete entity ids. -/
theorem C8_key_shape_witness :
    ("a" : String) ≠ "b" ∧
    proxy0.contextKey "a" ≠ proxy0.contextKey "b" ∧
    proxy0.stackKey "a" ≠ proxy0.stackKey "b" ∧
    proxy0.contextKey "a" ≠ proxy0.stackKey "a" :=
  ⟨by decide,
   (C8_key_shape proxy0 "a" "b").2.2.1 (by decide),
   (C8_key_shape proxy0 "a" "b").2.2.2.1 (by decide),
   (C8_key_shape proxy0 "a" "a").2.2.2.2⟩

/-- A Python value as it appears in an entity's attribute mapping
(`vars(entity)`): attribute values keep their object identity. -/
inductive PyVal where
  | str (s : String)
  | stateObj (st : State)
  | strList (l : List String)
  | intOpt (n : Option Int)
  | accessObj (a : Option AccessSettings)
  | accessRaw (r : Option RawAccessDict)
  | jsonObj (d : JsonData)
  deriving DecidableEq, Repr

/-- A Python dict from attribute names to values. -/
abbrev PyDict := List (String × PyVal)

/-- Read a dict entry. -/
def dictGet (d : PyDict) (k : String) : Option PyVal :=
  (d.find? (fun p => p.1 == k)).map (fun p => p.2)

/-- Assign a dict entry in place, preserving insertion order. -/
def dictSet (d : PyDict) (k : String) (v : PyVal) : PyDict :=
  if (d.find? (fun p => p.1 == k)).isSome then
    d.map (fun p => if p.1 == k then (k, v) else p)
  else d ++ [(k, v)]

/-- Modelled from the spec: `vars(context)`, the attribute mapping of a
`Context` with its state field holding the state object. -/
def Context.varsOf (c : Context) : PyDict :=
  [("id", .str c.id), ("state", .stateObj c.state), ("extra", .jsonObj c.extra)]

/-- Modelled from the spec: `vars(stack)`, the attribute mapping of a
`Stack` with its access-settings field holding the descriptor object. -/
def Stack.varsOf (s : Stack) : PyDict :=
  [("id", .str s.id), ("intents", .strList s.intents),
   ("last_message_id", .intOpt s.last_message_id),
   ("access_settings", .accessObj s.access_settings)]

/-- Translated from the body of `save_context` at dict granularity:
`data = copy(vars(context))` takes a shallow copy of the attribute mapping,
and `data["state"] = data["state"].state` then rebinds the entry of the
copy only.  The result pairs the mapping handed to the store with the
context's own attribute mapping as it stands after the call. -/
def save_context_fields (c : Context) : PyDict × PyDict :=
  let objDict := Context.varsOf c
  let data := objDict
  let data := dictSet data "state"
    (match dictGet data "state" with
     | some (.stateObj st) => .str st.state
     | _ => .str "")
  (data, objDict)

/-- Translated from the body of the populated branch of `save_stack` at
dict granularity: `data = copy(vars(stack))` takes a shallow copy, and
`data["access_settings"] = self._dump_access_settings(stack.access_settings)`
rebinds the entry of the copy only. -/
def save_stack_fields (p : StorageProxy) (s : Stack) : PyDict × PyDict :=
  let objDict := Stack.varsOf s
  let data := objDict
  let data := dictSet data "access_settings"
    (.accessRaw (p.dumpAccessSettings s.access_settings))
  (data, objDict)

/-- Sanity check: the dict written by the dict-level model of
`save_context` carries exactly the flattened fields that the record-level
`save_context` stores. -/
theorem save_context_fields_written (c : Context) :
    (save_context_fields c).1 =
      [("id", .str c.id), ("state", .str c.state.state),
       ("extra", .jsonObj c.extra)] := rfl

/-- Sanity check: the dict written by the dict-level model of the populated
branch of `save_stack` carries exactly the flattened fields that the
record-level `save_stack` stores. -/
theorem save_stack_fields_written (p : StorageProxy) (s : Stack) :
    (save_stack_fields p s).1 =
      [("id", .str s.id), ("intents", .strList s.intents),
       ("last_message_id", .intOpt s.last_message_id),
       ("access_settings", .accessRaw (p.dumpAccessSettings s.access_settings))] :=
  rfl

/-- C9: saving flattens a shallow copy of the entity's fields, so the
entity is unchanged by the call: the context's attribute mapping still
holds the resolved state object (not its textual identifier) and the
stack's attribute mapping still holds the `AccessSettings` object (not its
dumped mapping) after saving. -/
theorem C9_save_preserves_entities (p : StorageProxy) (c : Context)
    (s : Stack) :
    (save_context_fields c).2 = Context.varsOf c ∧
    dictGet (save_context_fields c).2 "state" = some (.stateObj c.state) ∧
    (save_stack_fields p s).2 = Stack.varsOf s ∧
    dictGet (save_stack_fields p s).2 "access_settings" =
      some (.accessObj s.access_settings) := by
  refine ⟨rfl, ?_, rfl, ?_⟩
  · rfl
  · rfl

end AiogramDialog
